import Mathlib

/-!
Verification of the metadata-aware routing core of mysql-router.

The repository files under verification are:
- `src/metadata_cache/tests/test_metadata.cc` — unit tests of
  `ClusterMetadata` (`connect`, `fetch_instances_from_metadata_server`,
  `check_replicaset_status`, `update_replicaset_status`).  The
  implementation file `cluster_metadata.cc` itself is not among the
  repository files, so those operations are modelled from the
  specification (sections 4.1-4.3) and checked against the behaviour the
  tests pin down; each such definition carries a `Modelled from the
  spec:` comment.
- `src/routing/src/plugin_config.cc` — the routing plugin configuration
  constructor (embedded directly).
- `src/harness/src/socket_operations.cc` — `connect_non_blocking_wait`
  (embedded directly).
-/

/-! ## Data model (spec section 3) -/

/-- `metadata_cache::ServerMode` — the routing mode computed per member. -/
inductive ServerMode where
  | Unavailable : ServerMode
  | ReadOnly    : ServerMode
  | ReadWrite   : ServerMode
deriving DecidableEq, Repr

/-- `metadata_cache::ReplicasetStatus` — the overall quorum verdict. -/
inductive ReplicasetStatus where
  | AvailableWritable : ReplicasetStatus
  | AvailableReadOnly : ReplicasetStatus
  | Unavailable       : ReplicasetStatus
deriving DecidableEq, Repr

/-- `GroupReplicationMember::State` — live state of a group member. -/
inductive GRState where
  | Online      : GRState
  | Offline     : GRState
  | Recovering  : GRState
  | Unreachable : GRState
  | Other       : GRState
deriving DecidableEq, Repr

/-- `GroupReplicationMember::Role` — live role of a group member. -/
inductive GRRole where
  | Primary   : GRRole
  | Secondary : GRRole
deriving DecidableEq, Repr

/-- `GroupReplicationMember` — live state learned from a running cluster
node (spec section 3): `{uuid, host, port, state, role}`. -/
structure GroupReplicationMember where
  uuid  : String
  host  : String
  port  : Nat
  state : GRState
  role  : GRRole
deriving DecidableEq, Repr

/-- `metadata_cache::ManagedInstance` — a member of a replica set as
reported by metadata (spec section 3). -/
structure ManagedInstance where
  replicaset_name   : String
  mysql_server_uuid : String
  role              : String
  mode              : ServerMode
  weight            : Rat
  version_token     : Nat
  location          : String
  host              : String
  port              : Nat
  xport             : Nat
deriving DecidableEq, Repr

/-- A default `ManagedInstance`, used with `List.getD`. -/
def ManagedInstance.dflt : ManagedInstance :=
  { replicaset_name := "", mysql_server_uuid := "", role := "",
    mode := ServerMode.Unavailable, weight := 0, version_token := 0,
    location := "", host := "", port := 0, xport := 0 }

/-! ## Quorum computation `check_replicaset_status` (spec section 4.3)

Modelled from the spec: `ClusterMetadata::check_replicaset_status` of
`cluster_metadata.cc` is not among the repository files (only its unit
tests in `test_metadata.cc` are).  The model below follows the algorithm
of spec section 4.3 step by step; the live `uuid -> GroupMember` map is
embedded as a lookup function `String → Option GroupReplicationMember`. -/

/-- Mode assigned to one declared member from its live lookup result
(spec section 4.3 step 2): absent ⇒ `Unavailable`; `Online` `Primary` ⇒
`ReadWrite`; `Online` otherwise ⇒ `ReadOnly`; any non-`Online` state ⇒
`Unavailable`. -/
def member_mode (g : Option GroupReplicationMember) : ServerMode :=
  match g with
  | none => ServerMode.Unavailable
  | some g =>
    match g.state, g.role with
    | GRState.Online, GRRole.Primary   => ServerMode.ReadWrite
    | GRState.Online, GRRole.Secondary => ServerMode.ReadOnly
    | _, _ => ServerMode.Unavailable

/-- Whether a declared member's live lookup result counts toward the
`online` tally (spec section 4.3 step 2): present and `Online`. -/
def counts_online (g : Option GroupReplicationMember) : Bool :=
  match g with
  | some g => match g.state with
    | GRState.Online => true
    | _ => false
  | none => false

/-- Whether a declared member's live lookup result marks `primary_found`
(spec section 4.3 step 2): present, `Online` and `Primary`. -/
def is_online_primary (g : Option GroupReplicationMember) : Bool :=
  match g with
  | some g => match g.state, g.role with
    | GRState.Online, GRRole.Primary => true
    | _, _ => false
  | none => false

/-- Modelled from the spec: `ClusterMetadata::check_replicaset_status`
(spec section 4.3).  Takes the declared `members` (ordered) and the live
map; returns the members with their `mode` fields set together with the
quorum verdict: `Unavailable` when `online ≤ expected / 2` (integer
division), else `AvailableWritable` when a live `Online` `Primary` was
found, else `AvailableReadOnly`. -/
def check_replicaset_status (members : List ManagedInstance)
    (status : String → Option GroupReplicationMember) :
    List ManagedInstance × ReplicasetStatus :=
  let expected := members.length
  let labelled := members.map
    (fun m => { m with mode := member_mode (status m.mysql_server_uuid) })
  let online := (members.filter
    (fun m => counts_online (status m.mysql_server_uuid))).length
  let primary_found := members.any
    (fun m => is_online_primary (status m.mysql_server_uuid))
  let verdict :=
    if online ≤ expected / 2 then ReplicasetStatus.Unavailable
    else if primary_found then ReplicasetStatus.AvailableWritable
    else ReplicasetStatus.AvailableReadOnly
  (labelled, verdict)

/-! ## `update_replicaset_status` (spec section 4.2)

Modelled from the spec: `ClusterMetadata::update_replicaset_status` of
`cluster_metadata.cc` is not among the repository files (only its unit
tests are).  The model abstracts each declared member's behaviour as
three booleans: whether a fresh connection to it succeeds, whether Q2
(the primary query) succeeds and whether Q3 (the status query) succeeds.
Session bookkeeping is threaded explicitly: the mock session factory of
the tests counts one created session per connection attempt (successful
or not), and the session opened by `connect()` is already open to the
first declared candidate (spec section 4.2, session reuse). -/

/-- Behaviour of one declared member during `update_replicaset_status`:
does a fresh connect to it succeed, does Q2 succeed, does Q3 succeed. -/
structure MemberBehavior where
  connect_ok : Bool
  q2_ok      : Bool
  q3_ok      : Bool
deriving DecidableEq, Repr

/-- The operator-facing exhaustion message of spec section 4.2. -/
def update_error_msg (name : String) : String :=
  "Unable to fetch live group_replication member data from any server in replicaset '"
    ++ name ++ "'"

/-- Modelled from the spec: the member iteration of
`update_replicaset_status` (spec section 4.2).  `sessionOpen` states
whether a session to the current head member is already open (true only
for the first member, via reuse of the `connect()` session); `cnt` is
the number of sessions created so far.  A connection attempt counts one
created session whether or not it succeeds; a Q2 or Q3 failure closes
the session and advances; exhaustion yields the literal error message. -/
def update_replicaset_status_loop (name : String) :
    List MemberBehavior → Bool → Nat → Except String Unit × Nat
  | [], _, cnt => (Except.error (update_error_msg name), cnt)
  | b :: rest, sessionOpen, cnt =>
    if sessionOpen then
      if b.q2_ok then
        if b.q3_ok then (Except.ok (), cnt)
        else update_replicaset_status_loop name rest false cnt
      else update_replicaset_status_loop name rest false cnt
    else
      if b.connect_ok then
        if b.q2_ok then
          if b.q3_ok then (Except.ok (), cnt + 1)
          else update_replicaset_status_loop name rest false (cnt + 1)
        else update_replicaset_status_loop name rest false (cnt + 1)
      else update_replicaset_status_loop name rest false (cnt + 1)

/-- Modelled from the spec: `ClusterMetadata::update_replicaset_status`
(spec section 4.2), entered with the `connect()` session still open to
the first declared candidate and `cnt` sessions created so far. -/
def update_replicaset_status (name : String) (behaviors : List MemberBehavior)
    (cnt : Nat) : Except String Unit × Nat :=
  update_replicaset_status_loop name behaviors true cnt

/-! ## `connect(candidates)` (spec section 4.2)

Modelled from the spec: `ClusterMetadata::connect` of
`cluster_metadata.cc` is not among the repository files.  One session is
obtained from the factory, then the candidates are attempted on it in
declared order until the first success.  `good host port` abstracts
whether a connection attempt to that address succeeds; the model returns
the attempted `(host, port)` list so that the order and early stop are
observable (the tests observe them through `flag_fail`/`flag_succeed`). -/

/-- Modelled from the spec: the candidate iteration of `connect` — the
ordered list of attempted addresses paired with the overall outcome.
Stops at the first successful candidate. -/
def connect_loop (good : String → Nat → Bool) :
    List ManagedInstance → List (String × Nat) × Bool
  | [] => ([], false)
  | c :: rest =>
    if good c.host c.port then ([(c.host, c.port)], true)
    else
      let r := connect_loop good rest
      ((c.host, c.port) :: r.1, r.2)

/-- Modelled from the spec: `ClusterMetadata::connect(candidates)` (spec
section 4.2).  Returns (success flag, sessions created, attempted
addresses in order).  Exactly one session is created per call: the
factory's `create()` runs once, before the iteration, and the same
session object serves every attempt. -/
def ClusterMetadata.connect (good : String → Nat → Bool)
    (candidates : List ManagedInstance) : Bool × Nat × List (String × Nat) :=
  let r := connect_loop good candidates
  (r.2, 1, r.1)

/-! ## `fetch_instances_from_metadata_server` (spec section 4.1, Q1)

Modelled from the spec: the Q1 row parsing of
`ClusterMetadata::fetch_instances_from_metadata_server` is not among the
repository files.  A Q1 row carries
`(replicaset_name, mysql_server_uuid, role, weight, version_token,
location, classic_addr, x_addr)`; nullable columns are `Option String`. -/

/-- A row of Q1 as delivered to the row processor. -/
structure MetadataRow where
  replicaset_name   : String
  mysql_server_uuid : String
  role              : String
  weight            : Option String
  version_token     : Option String
  location          : String
  classic_addr      : Option String
  x_addr            : Option String

/-- Split a character list at the first occurrence of `sep`: the part
before it, and (when `sep` occurs) the part after it. -/
def break_at (sep : Char) : List Char → List Char × Option (List Char)
  | [] => ([], none)
  | c :: cs =>
    if c = sep then ([], some cs)
    else
      let r := break_at sep cs
      (c :: r.1, r.2)

/-- Read a digit string as a number; `none` on a non-digit. -/
def digits_nat : List Char → Nat → Option Nat
  | [], acc => some acc
  | c :: cs, acc =>
    if c.isDigit then digits_nat cs (acc * 10 + (c.toNat - 48))
    else none

/-- A numeric column read as a natural number, a non-numeric or empty
value reading as 0. -/
def parse_nat (s : List Char) : Nat :=
  (digits_nat s 0).getD 0

/-- Modelled from the spec: split `"host:port"` into host and optional
port (`mysqlrouter::split_addr_port`); an address without a colon, or
with a non-numeric or empty port part, has no port. -/
def split_addr_port (addr : String) : String × Option Nat :=
  let r := break_at ':' addr.data
  (String.mk r.1,
   match r.2 with
   | none => none
   | some [] => none
   | some p => digits_nat p 0)

/-- Modelled from the spec: a decimal numeral such as `"1.5"` read as a
rational (the `weight` column; spec type f32, always small and exact in
the repository's tests). -/
def parse_decimal (s : String) : Rat :=
  let r := break_at '.' s.data
  match r.2 with
  | none => (parse_nat r.1 : Rat)
  | some frac => (parse_nat r.1 : Rat) + (parse_nat frac : Rat) / (10 ^ frac.length)

/-- Modelled from the spec: parse one Q1 row into a `ManagedInstance`
(spec section 4.1): `classic_addr` is `"host:port"` with port defaulting
to 3306 (a null address reads as an empty host); a null `x_addr` yields
`xport = port * 10`; null numeric columns read as 0; `mode` is not set
by this query and stays `Unavailable`. -/
def parse_metadata_row (r : MetadataRow) : ManagedInstance :=
  let classic := r.classic_addr.getD ""
  let hp := split_addr_port classic
  let port := hp.2.getD 3306
  let xport :=
    match r.x_addr with
    | none => port * 10
    | some a => ((split_addr_port a).2).getD (port * 10)
  { replicaset_name := r.replicaset_name
    mysql_server_uuid := r.mysql_server_uuid
    role := r.role
    mode := ServerMode.Unavailable
    weight := match r.weight with
      | none => 0
      | some s => parse_decimal s
    version_token := match r.version_token with
      | none => 0
      | some s => parse_nat s.data
    location := r.location
    host := hp.1
    port := port
    xport := xport }

/-- Append an instance to its replica set's group (groups keyed by
replica-set name, encounter order kept). -/
def insert_instance (name : String) (mi : ManagedInstance) :
    List (String × List ManagedInstance) → List (String × List ManagedInstance)
  | [] => [(name, [mi])]
  | (n, l) :: rest =>
    if n = name then (n, l ++ [mi]) :: rest
    else (n, l) :: insert_instance name mi rest

/-- Modelled from the spec:
`ClusterMetadata::fetch_instances_from_metadata_server` (spec section
4.2) — parse every Q1 row and group the instances by `replicaset_name`,
returning the full mapping. -/
def fetch_instances_from_metadata_server (rows : List MetadataRow) :
    List (String × List ManagedInstance) :=
  rows.foldl
    (fun acc r => insert_instance r.replicaset_name (parse_metadata_row r) acc) []

/-- Total number of instances across all groups of the returned mapping. -/
def total_instances (groups : List (String × List ManagedInstance)) : Nat :=
  (groups.map (fun g => g.2.length)).sum

/-! ## Routing plugin configuration (`src/routing/src/plugin_config.cc`) -/

/-- The listener check of `RoutingPluginConfig::RoutingPluginConfig`
(`plugin_config.cc` lines 55-58): after all options are read, the
constructor throws `invalid_argument` when `bind_address.port` is zero
and the named socket is not set.  `bind_address_port` is the port of the
parsed `bind_address` option and `named_socket_is_set` the result of
`named_socket.is_set()`. -/
def RoutingPluginConfig.listener_check (bind_address_port : Nat)
    (named_socket_is_set : Bool) : Except String Unit :=
  if bind_address_port = 0 && !named_socket_is_set then
    Except.error "either bind_address or socket option needs to be supplied, or both"
  else
    Except.ok ()

/-! ## `SocketOperations::connect_non_blocking_wait`
(`src/harness/src/socket_operations.cc` lines 67-92) -/

/-- Linux `POLLOUT` flag. -/
def POLLOUT : Nat := 4

/-- Linux `ETIMEDOUT` errno. -/
def ETIMEDOUT : Nat := 110

/-- Linux `EINVAL` errno. -/
def EINVAL : Nat := 22

/-- `SocketOperations::connect_non_blocking_wait`: the function polls the
socket for `POLLOUT`; the embedding takes the poll outcome — its return
value `pollRes` and the `revents` bitmask of the single polled fd — and
returns the function's result paired with the errno value stored via
`set_errno` (`none` when no errno is stored).  Zero from poll is a
timeout (store `ETIMEDOUT`, return -1); a negative poll result returns
-1 with no stored errno; a positive result returns 0 when `revents` has
`POLLOUT`, else stores `EINVAL` and returns -1. -/
def connect_non_blocking_wait (pollRes : Int) (revents : Nat) :
    Int × Option Nat :=
  if pollRes = 0 then
    (-1, some ETIMEDOUT)
  else if pollRes < 0 then
    (-1, none)
  else
    if revents &&& POLLOUT ≠ 0 then (0, none)
    else (-1, some EINVAL)

/-! ## Basic lemmas about `check_replicaset_status` -/

/-- The labelled member list of `check_replicaset_status`. -/
theorem check_replicaset_status_fst (members : List ManagedInstance)
    (status : String → Option GroupReplicationMember) :
    (check_replicaset_status members status).1 =
      members.map (fun m => { m with mode := member_mode (status m.mysql_server_uuid) }) := rfl

/-- The verdict of `check_replicaset_status` as an explicit conditional. -/
theorem check_replicaset_status_snd (members : List ManagedInstance)
    (status : String → Option GroupReplicationMember) :
    (check_replicaset_status members status).2 =
      if (members.filter (fun m => counts_online (status m.mysql_server_uuid))).length
          ≤ members.length / 2
      then ReplicasetStatus.Unavailable
      else if members.any (fun m => is_online_primary (status m.mysql_server_uuid))
      then ReplicasetStatus.AvailableWritable
      else ReplicasetStatus.AvailableReadOnly := rfl

/-- The `i`-th labelled member is the `i`-th declared member with its mode
set from its own live lookup. -/
theorem check_replicaset_status_getD (members : List ManagedInstance)
    (status : String → Option GroupReplicationMember) (i : Nat)
    (h : i < members.length) :
    (check_replicaset_status members status).1.getD i ManagedInstance.dflt =
      { members.getD i ManagedInstance.dflt with
        mode := member_mode (status ((members.getD i ManagedInstance.dflt).mysql_server_uuid)) } := by
  rw [check_replicaset_status_fst]
  rw [List.getD_eq_getElem?_getD, List.getD_eq_getElem?_getD, List.getElem?_map,
    List.getElem?_eq_getElem h]
  rfl

/-- `Bool.any` respected by pointwise-equal predicates. -/
theorem list_any_congr {α : Type} {p q : α → Bool} :
    ∀ {l : List α}, (∀ a ∈ l, p a = q a) → l.any p = l.any q := by
  intro l h
  induction l with
  | nil => rfl
  | cons a t ih =>
    simp only [List.any_cons, h a (by simp),
      ih (fun b hb => h b (by simp [hb]))]

/-- `List.filter` respected by pointwise-equal predicates. -/
theorem list_filter_congr {α : Type} {p q : α → Bool} :
    ∀ {l : List α}, (∀ a ∈ l, p a = q a) → l.filter p = l.filter q := by
  intro l h
  induction l with
  | nil => rfl
  | cons a t ih =>
    simp only [List.filter_cons, h a (by simp),
      ih (fun b hb => h b (by simp [hb]))]

/-! ## Concrete inputs for the witnesses (mirroring `test_metadata.cc`) -/

/-- The three declared members of the tests (uuid is all that matters to
`check_replicaset_status`). -/
def demo_members : List ManagedInstance :=
  [{ ManagedInstance.dflt with mysql_server_uuid := "instance-1" },
   { ManagedInstance.dflt with mysql_server_uuid := "instance-2" },
   { ManagedInstance.dflt with mysql_server_uuid := "instance-3" }]

/-- Live map: all three online, instance-1 primary (the typical case of
`CheckReplicasetStatus_3NodeSetup`). -/
def demo_status_all_online : String → Option GroupReplicationMember :=
  fun u =>
    if u = "instance-1" then some ⟨"instance-1", "", 0, GRState.Online, GRRole.Primary⟩
    else if u = "instance-2" then some ⟨"instance-2", "", 0, GRState.Online, GRRole.Secondary⟩
    else if u = "instance-3" then some ⟨"instance-3", "", 0, GRState.Online, GRRole.Secondary⟩
    else none

/-- Live map: instance-1 online primary, the other two offline (the
lose-quorum case of `CheckReplicasetStatus_VariousStatuses`). -/
def demo_status_two_offline : String → Option GroupReplicationMember :=
  fun u =>
    if u = "instance-1" then some ⟨"instance-1", "", 0, GRState.Online, GRRole.Primary⟩
    else if u = "instance-2" then some ⟨"instance-2", "", 0, GRState.Offline, GRRole.Secondary⟩
    else if u = "instance-3" then some ⟨"instance-3", "", 0, GRState.Offline, GRRole.Secondary⟩
    else none

/-- `demo_status_all_online` extended with two members whose uuids are
unknown to the declared list (the unknown-uuid cases of
`CheckReplicasetStatus_3NodeSetup`). -/
def demo_status_with_noise : String → Option GroupReplicationMember :=
  fun u =>
    if u = "instance-4" then some ⟨"instance-4", "host4", 4444, GRState.Online, GRRole.Secondary⟩
    else if u = "instance-5" then some ⟨"instance-5", "", 0, GRState.Online, GRRole.Primary⟩
    else demo_status_all_online u

/-- Live map: instances 1 and 2 online primaries, instance 3 online
secondary (the multi-primary case of `CheckReplicasetStatus_3NodeSetup`). -/
def demo_status_two_primaries : String → Option GroupReplicationMember :=
  fun u =>
    if u = "instance-1" then some ⟨"instance-1", "", 0, GRState.Online, GRRole.Primary⟩
    else if u = "instance-2" then some ⟨"instance-2", "", 0, GRState.Online, GRRole.Primary⟩
    else if u = "instance-3" then some ⟨"instance-3", "", 0, GRState.Online, GRRole.Secondary⟩
    else none

/-! Sanity checks against the scenarios of
`MetadataTest.CheckReplicasetStatus_VariousStatuses`. -/

example :
    (check_replicaset_status demo_members demo_status_all_online).2 =
      ReplicasetStatus.AvailableWritable := by decide

example :
    (check_replicaset_status demo_members demo_status_two_offline).2 =
      ReplicasetStatus.Unavailable := by decide

example :
    ((check_replicaset_status demo_members demo_status_two_offline).1.map
      (fun m => m.mode)) =
      [ServerMode.ReadWrite, ServerMode.Unavailable, ServerMode.Unavailable] := by decide

/-! ## Claim C1 — the quorum verdict -/

/-- C1: for every declared member list and live map,
`check_replicaset_status` returns `Unavailable` when the number of
declared members found live and `Online` is at most `len(members) / 2`
(integer division); otherwise it returns `AvailableWritable` when some
declared member is live `Online` with role `Primary` and
`AvailableReadOnly` otherwise; an empty declared list always yields
`Unavailable`. -/
theorem check_replicaset_status_verdict (members : List ManagedInstance)
    (status : String → Option GroupReplicationMember) :
    (members.countP (fun m => counts_online (status m.mysql_server_uuid))
        ≤ members.length / 2 →
      (check_replicaset_status members status).2 = ReplicasetStatus.Unavailable)
    ∧ (members.length / 2
        < members.countP (fun m => counts_online (status m.mysql_server_uuid)) →
      ((∃ m ∈ members, is_online_primary (status m.mysql_server_uuid) = true) →
        (check_replicaset_status members status).2 = ReplicasetStatus.AvailableWritable)
      ∧ ((∀ m ∈ members, is_online_primary (status m.mysql_server_uuid) = false) →
        (check_replicaset_status members status).2 = ReplicasetStatus.AvailableReadOnly))
    ∧ (members = [] →
      (check_replicaset_status members status).2 = ReplicasetStatus.Unavailable) := by
  refine ⟨?_, ?_, ?_⟩
  · intro h
    rw [List.countP_eq_length_filter] at h
    rw [check_replicaset_status_snd, if_pos h]
  · intro h
    rw [List.countP_eq_length_filter] at h
    constructor
    · intro hex
      rw [check_replicaset_status_snd, if_neg (not_le.mpr h),
        if_pos (List.any_eq_true.mpr hex)]
    · intro hall
      have hany : members.any (fun m => is_online_primary (status m.mysql_server_uuid)) = false := by
        rw [List.any_eq_false]
        intro m hm
        simp [hall m hm]
      rw [check_replicaset_status_snd, if_neg (not_le.mpr h), hany, if_neg]
      exact Bool.false_ne_true
  · intro h
    subst h
    rfl

/-- C1 witness: on the concrete lose-quorum scenario (one `Online`, two
`Offline` out of three declared) the verdict is `Unavailable`, and the
empty declared list yields `Unavailable`. -/
theorem check_replicaset_status_verdict_witness :
    (check_replicaset_status demo_members demo_status_two_offline).2 =
      ReplicasetStatus.Unavailable
    ∧ (check_replicaset_status [] demo_status_all_online).2 =
      ReplicasetStatus.Unavailable :=
  ⟨(check_replicaset_status_verdict demo_members demo_status_two_offline).1 (by decide),
   (check_replicaset_status_verdict [] demo_status_all_online).2.2 rfl⟩

/-! ## Claim C3 — the per-member labelling -/

/-- C3: after `check_replicaset_status`, the `i`-th declared member is
labelled `Unavailable` when its uuid is absent from the live map;
`ReadWrite` when live `Online` with role `Primary`; `ReadOnly` when live
`Online` with any other role; and `Unavailable` for every non-`Online`
live state — independently of the verdict. -/
theorem check_replicaset_status_member_modes (members : List ManagedInstance)
    (status : String → Option GroupReplicationMember) (i : Nat)
    (h : i < members.length) :
    (status ((members.getD i ManagedInstance.dflt).mysql_server_uuid) = none →
      ((check_replicaset_status members status).1.getD i ManagedInstance.dflt).mode
        = ServerMode.Unavailable)
    ∧ (∀ g : GroupReplicationMember,
        status ((members.getD i ManagedInstance.dflt).mysql_server_uuid) = some g →
      ((g.state = GRState.Online →
        (g.role = GRRole.Primary →
          ((check_replicaset_status members status).1.getD i ManagedInstance.dflt).mode
            = ServerMode.ReadWrite)
        ∧ (g.role = GRRole.Secondary →
          ((check_replicaset_status members status).1.getD i ManagedInstance.dflt).mode
            = ServerMode.ReadOnly))
      ∧ (g.state ≠ GRState.Online →
        ((check_replicaset_status members status).1.getD i ManagedInstance.dflt).mode
          = ServerMode.Unavailable))) := by
  rw [check_replicaset_status_getD members status i h]
  refine ⟨fun hn => ?_, fun g hg => ?_⟩
  · show member_mode _ = _
    rw [hn]
    rfl
  · obtain ⟨u, ho, po, st, ro⟩ := g
    refine ⟨fun hs => ⟨fun hr => ?_, fun hr => ?_⟩, fun hs => ?_⟩ <;>
      · show member_mode _ = _
        rw [hg]
        cases st <;> cases ro <;> simp_all [member_mode]

/-- C3 witness: in the concrete lose-quorum scenario the lone `Online`
`Primary` is still labelled `ReadWrite` (and the `Offline` second member
`Unavailable`) even though the overall verdict is `Unavailable`. -/
theorem check_replicaset_status_member_modes_witness :
    ((check_replicaset_status demo_members demo_status_two_offline).1.getD 0
      ManagedInstance.dflt).mode = ServerMode.ReadWrite
    ∧ ((check_replicaset_status demo_members demo_status_two_offline).1.getD 1
      ManagedInstance.dflt).mode = ServerMode.Unavailable
    ∧ (check_replicaset_status demo_members demo_status_two_offline).2 =
      ReplicasetStatus.Unavailable :=
  ⟨(((check_replicaset_status_member_modes demo_members demo_status_two_offline 0
      (by decide)).2 ⟨"instance-1", "", 0, GRState.Online, GRRole.Primary⟩
      (by decide)).1 rfl).1 rfl,
   ((check_replicaset_status_member_modes demo_members demo_status_two_offline 1
      (by decide)).2 ⟨"instance-2", "", 0, GRState.Offline, GRRole.Secondary⟩
      (by decide)).2 (by decide),
   by decide⟩

/-! ## Claim C7 — unknown-uuid noise immunity -/

/-- C7: extending the live map with entries whose uuid is not among the
declared members — i.e. replacing it by any map that agrees with it on
every declared member's uuid — changes neither any declared member's
computed mode nor the verdict of `check_replicaset_status`. -/
theorem check_replicaset_status_noise_immune (members : List ManagedInstance)
    (status status' : String → Option GroupReplicationMember)
    (h : ∀ m ∈ members, status' m.mysql_server_uuid = status m.mysql_server_uuid) :
    check_replicaset_status members status' = check_replicaset_status members status := by
  have h1 : (check_replicaset_status members status').1
      = (check_replicaset_status members status).1 := by
    rw [check_replicaset_status_fst, check_replicaset_status_fst]
    exact List.map_congr_left (fun m hm => by rw [h m hm])
  have h2 : (check_replicaset_status members status').2
      = (check_replicaset_status members status).2 := by
    have hfa : members.filter (fun m => counts_online (status' m.mysql_server_uuid))
        = members.filter (fun m => counts_online (status m.mysql_server_uuid)) :=
      list_filter_congr (fun m hm => by rw [h m hm])
    have han : members.any (fun m => is_online_primary (status' m.mysql_server_uuid))
        = members.any (fun m => is_online_primary (status m.mysql_server_uuid)) :=
      list_any_congr (fun m hm => by rw [h m hm])
    rw [check_replicaset_status_snd, check_replicaset_status_snd, hfa, han]
  exact Prod.ext h1 h2

/-- C7 witness: adding the two unknown members `instance-4` and
`instance-5` to the all-online live map leaves the result of
`check_replicaset_status` on the three declared members unchanged. -/
theorem check_replicaset_status_noise_immune_witness :
    check_replicaset_status demo_members demo_status_with_noise =
      check_replicaset_status demo_members demo_status_all_online :=
  check_replicaset_status_noise_immune demo_members demo_status_all_online
    demo_status_with_noise (by decide)

/-! ## Claim C8 — multi-primary treated as single-primary -/

/-- C8: when more than one declared member is live `Online` `Primary`,
every such member is labelled `ReadWrite`, every live `Online`
non-primary is labelled `ReadOnly`, and the verdict follows the usual
quorum rule with `primary_found` true: `Unavailable` without quorum,
`AvailableWritable` with it. -/
theorem check_replicaset_status_multi_primary (members : List ManagedInstance)
    (status : String → Option GroupReplicationMember)
    (h : 2 ≤ members.countP (fun m => is_online_primary (status m.mysql_server_uuid))) :
    (∀ i, i < members.length →
      (is_online_primary (status ((members.getD i ManagedInstance.dflt).mysql_server_uuid)) = true →
        ((check_replicaset_status members status).1.getD i ManagedInstance.dflt).mode
          = ServerMode.ReadWrite)
      ∧ (counts_online (status ((members.getD i ManagedInstance.dflt).mysql_server_uuid)) = true →
         is_online_primary (status ((members.getD i ManagedInstance.dflt).mysql_server_uuid)) = false →
        ((check_replicaset_status members status).1.getD i ManagedInstance.dflt).mode
          = ServerMode.ReadOnly))
    ∧ (check_replicaset_status members status).2 =
        (if members.countP (fun m => counts_online (status m.mysql_server_uuid))
            ≤ members.length / 2
         then ReplicasetStatus.Unavailable
         else ReplicasetStatus.AvailableWritable) := by
  constructor
  · intro i hi
    rw [check_replicaset_status_getD members status i hi]
    constructor
    · intro hp
      show member_mode _ = _
      cases hg : status ((members.getD i ManagedInstance.dflt).mysql_server_uuid) with
      | none => rw [hg] at hp; exact absurd hp (by simp [is_online_primary])
      | some g =>
        obtain ⟨u, ho, po, st, ro⟩ := g
        rw [hg] at hp
        cases st <;> cases ro <;> simp_all [member_mode, is_online_primary]
    · intro hon hp
      show member_mode _ = _
      cases hg : status ((members.getD i ManagedInstance.dflt).mysql_server_uuid) with
      | none => rw [hg] at hon; exact absurd hon (by simp [counts_online])
      | some g =>
        obtain ⟨u, ho, po, st, ro⟩ := g
        rw [hg] at hon hp
        cases st <;> cases ro <;> simp_all [member_mode, is_online_primary, counts_online]
  · have hpos : 0 < members.countP (fun m => is_online_primary (status m.mysql_server_uuid)) :=
      lt_of_lt_of_le (by norm_num) h
    obtain ⟨m, hm, hp⟩ := List.countP_pos_iff.mp hpos
    have hany : members.any (fun m => is_online_primary (status m.mysql_server_uuid)) = true :=
      List.any_eq_true.mpr ⟨m, hm, hp⟩
    rw [check_replicaset_status_snd, List.countP_eq_length_filter, hany]
    by_cases hq : (members.filter (fun m => counts_online (status m.mysql_server_uuid))).length
        ≤ members.length / 2
    · rw [if_pos hq, if_pos hq]
    · rw [if_neg hq, if_neg hq, if_pos rfl]

/-- C8 witness: with two declared members live `Online` `Primary` and one
`Online` `Secondary`, the verdict is `AvailableWritable` and the modes
are `ReadWrite`, `ReadWrite`, `ReadOnly`. -/
theorem check_replicaset_status_multi_primary_witness :
    (check_replicaset_status demo_members demo_status_two_primaries).2 =
      ReplicasetStatus.AvailableWritable
    ∧ ((check_replicaset_status demo_members demo_status_two_primaries).1.getD 1
        ManagedInstance.dflt).mode = ServerMode.ReadWrite
    ∧ ((check_replicaset_status demo_members demo_status_two_primaries).1.getD 2
        ManagedInstance.dflt).mode = ServerMode.ReadOnly :=
  ⟨by
    rw [(check_replicaset_status_multi_primary demo_members demo_status_two_primaries
      (by decide)).2]
    decide,
   ((check_replicaset_status_multi_primary demo_members demo_status_two_primaries
      (by decide)).1 1 (by decide)).1 (by decide),
   ((check_replicaset_status_multi_primary demo_members demo_status_two_primaries
      (by decide)).1 2 (by decide)).2 (by decide) (by decide)⟩

/-! ## Claim C2 — exhaustion raises the literal metadata error -/

/-- Once no session is open, a tail of members that all fail (whether at
connect, at Q2 or at Q3) drives the iteration to the exhaustion error. -/
theorem update_replicaset_status_loop_all_fail (name : String) :
    ∀ (bs : List MemberBehavior) (n0 : Nat),
    (∀ b ∈ bs, b.connect_ok = false ∨ b.q2_ok = false ∨ b.q3_ok = false) →
    (update_replicaset_status_loop name bs false n0).1 =
      Except.error (update_error_msg name) := by
  intro bs
  induction bs with
  | nil => intro n0 _; rfl
  | cons b rest ih =>
    intro n0 h
    have hr : ∀ x ∈ rest, x.connect_ok = false ∨ x.q2_ok = false ∨ x.q3_ok = false :=
      fun x hx => h x (List.mem_cons_of_mem _ hx)
    have hb := h b (List.mem_cons_self _ _)
    rw [update_replicaset_status_loop]
    rcases hb with hc | hq | hq3
    · simp only [hc, Bool.false_eq_true, if_false]
      exact ih _ hr
    · simp only [hq, Bool.false_eq_true, if_false, ite_self]
      exact ih _ hr
    · simp only [hq3, Bool.false_eq_true, if_false, ite_self]
      exact ih _ hr

/-- C2: when the iteration of `update_replicaset_status` exhausts all
declared members without any member delivering both a successful Q2 and
a successful Q3 — the first member (whose session is reused from
`connect()`) failing at Q2 or Q3, every later member failing at connect,
at Q2 or at Q3 — the call fails with exactly the message
`Unable to fetch live group_replication member data from any server in
replicaset '<name>'`. -/
theorem update_replicaset_status_exhausted (name : String)
    (bs : List MemberBehavior) (n0 : Nat)
    (h1 : ∀ b ∈ bs.take 1, b.q2_ok = false ∨ b.q3_ok = false)
    (h2 : ∀ b ∈ bs.drop 1, b.connect_ok = false ∨ b.q2_ok = false ∨ b.q3_ok = false) :
    (update_replicaset_status name bs n0).1 =
      Except.error
        ("Unable to fetch live group_replication member data from any server in replicaset '"
          ++ name ++ "'") := by
  cases bs with
  | nil => rfl
  | cons b rest =>
    have hb := h1 b (by simp)
    have hr : ∀ x ∈ rest, x.connect_ok = false ∨ x.q2_ok = false ∨ x.q3_ok = false := by
      simpa using h2
    show (update_replicaset_status_loop name (b :: rest) true n0).1
      = Except.error (update_error_msg name)
    rw [update_replicaset_status_loop]
    rcases hb with hq | hq3
    · simp only [hq, Bool.false_eq_true, if_false, if_true]
      exact update_replicaset_status_loop_all_fail name rest n0 hr
    · simp only [hq3, Bool.false_eq_true, if_false, if_true, ite_self]
      exact update_replicaset_status_loop_all_fail name rest n0 hr

/-- C2 witness: the `FailQueryOnAllNodes` scenario — Q2 fails on all
three members (fresh connections to members 2 and 3 succeed) — raises
exactly the literal message for `replicaset-1`, with three sessions
created in total. -/
theorem update_replicaset_status_exhausted_witness :
    (update_replicaset_status "replicaset-1"
      [⟨true, false, true⟩, ⟨true, false, true⟩, ⟨true, false, true⟩] 1).1 =
      Except.error
        "Unable to fetch live group_replication member data from any server in replicaset 'replicaset-1'"
    ∧ (update_replicaset_status "replicaset-1"
      [⟨true, false, true⟩, ⟨true, false, true⟩, ⟨true, false, true⟩] 1).2 = 3 :=
  ⟨update_replicaset_status_exhausted "replicaset-1"
    [⟨true, false, true⟩, ⟨true, false, true⟩, ⟨true, false, true⟩] 1
    (by decide) (by decide), rfl⟩

/-! ## Claim C5 — session reuse across `connect()` and
`update_replicaset_status` -/

/-- C5: `update_replicaset_status` reuses the session opened by
`connect()` for the first declared member: when the first member answers
Q2 and Q3 the call succeeds with no new session created (total stays at
the initial count); when the first member fails Q2 and the second member
accepts a connection and answers Q2 and Q3, the call succeeds having
created exactly one additional session. -/
theorem update_replicaset_status_session_reuse (name : String) (n0 : Nat)
    (b1 b2 : MemberBehavior) (rest : List MemberBehavior) :
    (b1.q2_ok = true → b1.q3_ok = true →
      update_replicaset_status name (b1 :: rest) n0 = (Except.ok (), n0))
    ∧ (b1.q2_ok = false → b2.connect_ok = true → b2.q2_ok = true → b2.q3_ok = true →
      update_replicaset_status name (b1 :: b2 :: rest) n0 = (Except.ok (), n0 + 1)) := by
  constructor
  · intro h2 h3
    simp [update_replicaset_status, update_replicaset_status_loop, h2, h3]
  · intro h1 hc h2 h3
    simp [update_replicaset_status, update_replicaset_status_loop, h1, hc, h2, h3]

/-- C5 witness: the sunny-day scenario (first member answers both
queries) keeps the session total at 1, and the `FailQueryOnNode1`
scenario (Q2 fails on the first member, the second member connects and
answers both queries) ends successfully with a total of 2 sessions. -/
theorem update_replicaset_status_session_reuse_witness :
    update_replicaset_status "replicaset-1"
      [⟨true, true, true⟩, ⟨true, true, true⟩, ⟨true, true, true⟩] 1 = (Except.ok (), 1)
    ∧ update_replicaset_status "replicaset-1"
      [⟨true, false, true⟩, ⟨true, true, true⟩, ⟨true, true, true⟩] 1 = (Except.ok (), 2) :=
  ⟨(update_replicaset_status_session_reuse "replicaset-1" 1 ⟨true, true, true⟩
      ⟨true, true, true⟩ [⟨true, true, true⟩, ⟨true, true, true⟩]).1 rfl rfl,
   (update_replicaset_status_session_reuse "replicaset-1" 1 ⟨true, false, true⟩
      ⟨true, true, true⟩ [⟨true, true, true⟩]).2 rfl rfl rfl rfl⟩

/-! ## Claim C4 — `connect(candidates)` -/

/-- The outcome flag of the candidate iteration: true iff some candidate
accepts a connection. -/
theorem connect_loop_flag (good : String → Nat → Bool) :
    ∀ candidates : List ManagedInstance,
    (connect_loop good candidates).2 = candidates.any (fun c => good c.host c.port) := by
  intro candidates
  induction candidates with
  | nil => rfl
  | cons c rest ih =>
    cases hg : good c.host c.port <;>
      simp [connect_loop, hg, ih]

/-- The attempted addresses of the candidate iteration: every failing
candidate before the first success, then the first success (and nothing
after it); all candidates when none succeeds. -/
theorem connect_loop_attempts (good : String → Nat → Bool) :
    ∀ candidates : List ManagedInstance,
    (connect_loop good candidates).1 =
      ((candidates.takeWhile (fun c => !(good c.host c.port)))
        ++ (candidates.dropWhile (fun c => !(good c.host c.port))).take 1).map
        (fun c => (c.host, c.port)) := by
  intro candidates
  induction candidates with
  | nil => rfl
  | cons c rest ih =>
    cases hg : good c.host c.port <;>
      simp [connect_loop, hg, ih, List.takeWhile_cons, List.dropWhile_cons]

/-- C4: `connect(candidates)` attempts candidates in list order and stops
at the first success — the attempted addresses are exactly the failing
prefix followed by the first succeeding candidate, so later candidates
are never attempted; it returns true iff some candidate's connection
succeeds (false when all fail); and exactly one session object is
created for the whole call. -/
theorem ClusterMetadata.connect_spec (good : String → Nat → Bool)
    (candidates : List ManagedInstance) :
    ((ClusterMetadata.connect good candidates).1 = true ↔
      ∃ c ∈ candidates, good c.host c.port = true)
    ∧ (ClusterMetadata.connect good candidates).2.1 = 1
    ∧ (ClusterMetadata.connect good candidates).2.2 =
      ((candidates.takeWhile (fun c => !(good c.host c.port)))
        ++ (candidates.dropWhile (fun c => !(good c.host c.port))).take 1).map
        (fun c => (c.host, c.port)) := by
  refine ⟨?_, rfl, ?_⟩
  · show (connect_loop good candidates).2 = true ↔ _
    rw [connect_loop_flag]
    exact List.any_eq_true
  · show (connect_loop good candidates).1 = _
    exact connect_loop_attempts good candidates

/-- The three metadata-server candidates of the connect tests. -/
def demo_metadata_servers : List ManagedInstance :=
  [{ ManagedInstance.dflt with
      mysql_server_uuid := "instance-1"
      host := "localhost"
      port := 3310
      xport := 33100 },
   { ManagedInstance.dflt with
      mysql_server_uuid := "instance-2"
      host := "127.0.0.1"
      port := 3320
      xport := 33200 },
   { ManagedInstance.dflt with
      mysql_server_uuid := "instance-3"
      host := "localhost"
      port := 3330
      xport := 33300 }]

/-! Sanity checks against `ConnectToMetadataServer_3rd` (only the third
candidate accepts: two failed attempts, then the success, one session)
and `ConnectToMetadataServer_none` (all fail: three attempts, still one
session, result false). -/

example :
    ClusterMetadata.connect (fun _ p => p == 3330) demo_metadata_servers =
      (true, 1, [("localhost", 3310), ("127.0.0.1", 3320), ("localhost", 3330)]) := by
  decide

example :
    ClusterMetadata.connect (fun _ _ => false) demo_metadata_servers =
      (false, 1, [("localhost", 3310), ("127.0.0.1", 3320), ("localhost", 3330)]) := by
  decide

example :
    ClusterMetadata.connect (fun _ p => p == 3310) demo_metadata_servers =
      (true, 1, [("localhost", 3310)]) := by
  decide

/-! ## Claim C6 — Q1 row parsing -/

/-- Inserting one instance grows the total instance count of the grouped
mapping by exactly one. -/
theorem total_instances_insert (name : String) (mi : ManagedInstance) :
    ∀ groups : List (String × List ManagedInstance),
    total_instances (insert_instance name mi groups) = total_instances groups + 1 := by
  intro groups
  induction groups with
  | nil => simp [insert_instance, total_instances]
  | cons g rest ih =>
    obtain ⟨n, l⟩ := g
    by_cases hn : n = name
    · simp [insert_instance, hn, total_instances]
      omega
    · simp [insert_instance, hn, total_instances] at ih ⊢
      omega

/-- The fold of `fetch_instances_from_metadata_server` adds the row count
to any accumulator's total. -/
theorem fetch_instances_fold_count :
    ∀ (rows : List MetadataRow) (acc : List (String × List ManagedInstance)),
    total_instances (rows.foldl
      (fun acc r => insert_instance r.replicaset_name (parse_metadata_row r) acc) acc)
      = total_instances acc + rows.length := by
  intro rows
  induction rows with
  | nil => intro acc; simp
  | cons r rest ih =>
    intro acc
    rw [List.foldl_cons, ih, total_instances_insert, List.length_cons]
    omega

/-- C6: every Q1 row parses into a `ManagedInstance` where a
`classic_addr` without a port gets the default port 3306; a null
`x_addr` yields `xport` ten times the (possibly defaulted) port; null
`weight` and `version_token` read as 0; a null or empty address yields
an empty host with the default port; and no row is dropped — the grouped
result of `fetch_instances_from_metadata_server` holds exactly one
instance per row. -/
theorem parse_metadata_row_spec :
    (∀ r : MetadataRow,
      ((split_addr_port (r.classic_addr.getD "")).2 = none →
        (parse_metadata_row r).port = 3306)
      ∧ (r.x_addr = none →
        (parse_metadata_row r).xport = 10 * (parse_metadata_row r).port)
      ∧ (r.weight = none → (parse_metadata_row r).weight = 0)
      ∧ (r.version_token = none → (parse_metadata_row r).version_token = 0)
      ∧ ((r.classic_addr = none ∨ r.classic_addr = some "") →
        (parse_metadata_row r).host = "" ∧ (parse_metadata_row r).port = 3306))
    ∧ (∀ rows : List MetadataRow,
      total_instances (fetch_instances_from_metadata_server rows) = rows.length) := by
  constructor
  · intro r
    refine ⟨?_, ?_, ?_, ?_, ?_⟩
    · intro h
      simp [parse_metadata_row, h]
    · intro h
      simp [parse_metadata_row, h]
      ring
    · intro h
      simp [parse_metadata_row, h]
    · intro h
      simp [parse_metadata_row, h]
    · intro h
      have hc : r.classic_addr.getD "" = "" := by
        rcases h with h | h <;> simp [h]
      constructor
      · show (split_addr_port (r.classic_addr.getD "")).1 = ""
        rw [hc]
        decide
      · show ((split_addr_port (r.classic_addr.getD "")).2).getD 3306 = 3306
        rw [hc]
        decide
  · intro rows
    have h := fetch_instances_fold_count rows []
    simpa [fetch_instances_from_metadata_server, total_instances] using h

/-- The all-null Q1 row `instance-4` of
`MetadataTest.FetchInstancesFromMetadataServer`. -/
def demo_row_null : MetadataRow :=
  { replicaset_name := "replicaset-1"
    mysql_server_uuid := "instance-4"
    role := ""
    weight := none
    version_token := none
    location := ""
    classic_addr := none
    x_addr := none }

/-- The four Q1 rows of the automatic-conversion block of
`MetadataTest.FetchInstancesFromMetadataServer`. -/
def demo_rows : List MetadataRow :=
  [{ replicaset_name := "replicaset-1"
     mysql_server_uuid := "instance-1"
     role := "HA"
     weight := some "0.2"
     version_token := some "0"
     location := "location1"
     classic_addr := some "localhost:3310"
     x_addr := some "localhost:33100" },
   { replicaset_name := "replicaset-1"
     mysql_server_uuid := "instance-2"
     role := "arbitrary_string"
     weight := some "1.5"
     version_token := some "1"
     location := "s.o_loc"
     classic_addr := some "localhost:3320"
     x_addr := none },
   { replicaset_name := "replicaset-1"
     mysql_server_uuid := "instance-3"
     role := ""
     weight := some "0.0"
     version_token := some "99"
     location := ""
     classic_addr := some "localhost"
     x_addr := none },
   demo_row_null]

/-- C6 witness: the all-null row is retained as an instance with empty
host, default port 3306 and `xport` 33060, with weight and version token
0, and the four-row result set yields four instances (none dropped). -/
theorem parse_metadata_row_spec_witness :
    (parse_metadata_row demo_row_null).host = ""
    ∧ (parse_metadata_row demo_row_null).port = 3306
    ∧ (parse_metadata_row demo_row_null).xport = 10 * (parse_metadata_row demo_row_null).port
    ∧ (parse_metadata_row demo_row_null).weight = 0
    ∧ (parse_metadata_row demo_row_null).version_token = 0
    ∧ total_instances (fetch_instances_from_metadata_server demo_rows) = 4 :=
  ⟨(parse_metadata_row_spec.1 demo_row_null).2.2.2.2 (Or.inl rfl) |>.1,
   (parse_metadata_row_spec.1 demo_row_null).1 (by decide),
   (parse_metadata_row_spec.1 demo_row_null).2.1 rfl,
   (parse_metadata_row_spec.1 demo_row_null).2.2.1 rfl,
   (parse_metadata_row_spec.1 demo_row_null).2.2.2.1 rfl,
   parse_metadata_row_spec.2 demo_rows⟩

/-! Sanity checks against the expected instances of
`MetadataTest.FetchInstancesFromMetadataServer`: hosts, ports, xports,
weights and version tokens of the four parsed rows. -/

example :
    (demo_rows.map (fun r => ((parse_metadata_row r).host,
      (parse_metadata_row r).port, (parse_metadata_row r).xport))) =
      [("localhost", 3310, 33100), ("localhost", 3320, 33200),
       ("localhost", 3306, 33060), ("", 3306, 33060)] := by
  decide

example :
    (demo_rows.map (fun r => (parse_metadata_row r).version_token)) = [0, 1, 99, 0] := by
  decide

example : parse_decimal "0.2" = 1/5 := by
  have h : parse_decimal "0.2" = ((0 : Nat) : Rat) + ((2 : Nat) : Rat) / (10 ^ 1) := rfl
  rw [h]
  norm_num

example : parse_decimal "1.5" = 3/2 := by
  have h : parse_decimal "1.5" = ((1 : Nat) : Rat) + ((5 : Nat) : Rat) / (10 ^ 1) := rfl
  rw [h]
  norm_num

/-! ## Claim C9 — bind_address / socket validation -/

/-- C9: constructing the routing plugin configuration passes the listener
check exactly when `bind_address` carries a port or the named socket is
set; when neither holds it fails with exactly
`either bind_address or socket option needs to be supplied, or both`,
and no other combination of the two options produces that error. -/
theorem RoutingPluginConfig.listener_check_spec (p : Nat) (s : Bool) :
    (RoutingPluginConfig.listener_check p s =
        Except.error "either bind_address or socket option needs to be supplied, or both"
      ↔ (p = 0 ∧ s = false))
    ∧ (RoutingPluginConfig.listener_check p s = Except.ok () ↔ (p ≠ 0 ∨ s = true)) := by
  unfold RoutingPluginConfig.listener_check
  by_cases hp : p = 0 <;> cases s <;> simp [hp]

/-! Sanity checks: neither option set fails with the exact message; a
bound TCP port alone, the socket alone, or both pass. -/

example :
    RoutingPluginConfig.listener_check 0 false =
      Except.error "either bind_address or socket option needs to be supplied, or both" := rfl

example : RoutingPluginConfig.listener_check 6446 false = Except.ok () := rfl

example : RoutingPluginConfig.listener_check 0 true = Except.ok () := rfl

example : RoutingPluginConfig.listener_check 6446 true = Except.ok () := rfl

/-! ## Claim C10 — `connect_non_blocking_wait` -/

/-- C10: `connect_non_blocking_wait` returns 0 exactly when the poll
reports the socket writable (a positive poll result whose `revents`
carries `POLLOUT`) within the timeout; a zero poll result (the timeout
elapsed) returns -1 with errno set to `ETIMEDOUT`; and every outcome of
the wait other than writable-within-timeout returns -1. -/
theorem connect_non_blocking_wait_spec (pollRes : Int) (revents : Nat) :
    ((connect_non_blocking_wait pollRes revents).1 = 0 ↔
      (0 < pollRes ∧ revents &&& POLLOUT ≠ 0))
    ∧ (pollRes = 0 →
      connect_non_blocking_wait pollRes revents = (-1, some ETIMEDOUT))
    ∧ ((connect_non_blocking_wait pollRes revents).1 = 0 ∨
      (connect_non_blocking_wait pollRes revents).1 = -1) := by
  unfold connect_non_blocking_wait
  by_cases h0 : pollRes = 0
  · subst h0
    simp
  · by_cases hneg : pollRes < 0
    · have : ¬ 0 < pollRes := by omega
      simp [h0, hneg, this]
    · have hpos : 0 < pollRes := by omega
      by_cases hout : revents &&& POLLOUT ≠ 0 <;> simp [h0, hneg, hout, hpos]

/-! Sanity checks: the four outcomes of the wait. -/

example : connect_non_blocking_wait 0 7 = (-1, some ETIMEDOUT) := rfl

example : connect_non_blocking_wait 1 POLLOUT = (0, none) := rfl

example : connect_non_blocking_wait (-1) POLLOUT = (-1, none) := rfl

example : connect_non_blocking_wait 1 1 = (-1, some EINVAL) := rfl

/-! ## Concrete witnesses for the remaining claims -/

/-- C4 witness: on the `ConnectToMetadataServer_3rd` candidates, with
only the third accepting, `connect` returns true and creates exactly one
session. -/
theorem ClusterMetadata.connect_spec_witness :
    (ClusterMetadata.connect (fun _ p => p == 3330) demo_metadata_servers).1 = true
    ∧ (ClusterMetadata.connect (fun _ p => p == 3330) demo_metadata_servers).2.1 = 1 :=
  ⟨(ClusterMetadata.connect_spec (fun _ p => p == 3330) demo_metadata_servers).1.mpr
      (by decide),
   (ClusterMetadata.connect_spec (fun _ p => p == 3330) demo_metadata_servers).2.1⟩

/-- C9 witness: with no bound port and no named socket, the listener
check fails with the exact configured-options message. -/
theorem RoutingPluginConfig.listener_check_spec_witness :
    RoutingPluginConfig.listener_check 0 false =
      Except.error "either bind_address or socket option needs to be supplied, or both" :=
  (RoutingPluginConfig.listener_check_spec 0 false).1.mpr ⟨rfl, rfl⟩

/-- C10 witness: a zero poll result times out with `ETIMEDOUT`, and a
positive poll result carrying `POLLOUT` succeeds. -/
theorem connect_non_blocking_wait_spec_witness :
    connect_non_blocking_wait 0 7 = (-1, some ETIMEDOUT)
    ∧ (connect_non_blocking_wait 1 POLLOUT).1 = 0 :=
  ⟨(connect_non_blocking_wait_spec 0 7).2.1 rfl,
   (connect_non_blocking_wait_spec 1 POLLOUT).1.mpr ⟨by norm_num, by decide⟩⟩
